import Mathlib

/-!
Verification development for the `carmakes` Dash application (`src/app.py`).

The application loads a CSV of car ratings, and serves an interactive chart
with two cascading dropdowns (make, model).  We embed the data model and the
three relevant operations:

* `create_car_ratings_plot` (app.py lines 44-141): coerces the `Rating`
  column to numeric in place, builds one scatter trace per `(Make, Model)`
  group, and computes a dynamic title;
* `update_model_dropdown` (lines 177-182): the cascading model dropdown;
* `update_figure` (lines 184-198): rebuilds the figure and demotes traces
  whose name does not contain the selected model as a substring.

Ratings are embedded as `Option ℚ` (`none` is pandas NaN), years as `Int`,
and the figure as an explicit structure of traces plus a title value that
keeps the numeric content of the formatted title strings.
-/

namespace CarApp

unseal Rat.mul Rat.inv Rat.add

/-- A raw `Rating` cell as read from the CSV: a number, a non-numeric string,
or an empty (missing) cell. -/
inductive RawRating where
  | num (q : ℚ)
  | nonNum (s : String)
  | missing
deriving DecidableEq

/-- A row of the dataframe loaded at startup (`pd.read_csv` plus year
parsing; the year is kept as its number). -/
structure RawRecord where
  make : String
  model : String
  year : Int
  rating : RawRating
deriving DecidableEq

/-- `pd.to_numeric(cell, errors='coerce')` on one cell: numbers pass through,
anything else (non-numeric strings, missing cells) becomes NaN (`none`). -/
def to_numeric : RawRating → Option ℚ
  | .num q => some q
  | .nonNum _ => none
  | .missing => none

/-- A row after the `Rating` column has been coerced to numeric (line 45). -/
structure Record where
  make : String
  model : String
  year : Int
  rating : Option ℚ
deriving DecidableEq

def coerceRecord (r : RawRecord) : Record :=
  { make := r.make, model := r.model, year := r.year, rating := to_numeric r.rating }

def coerceDf (df : List RawRecord) : List Record := df.map coerceRecord

/-- The in-place assignment `df['Rating'] = pd.to_numeric(df['Rating'],
errors='coerce')` (line 45) as it affects the stored (global) dataframe:
each cell is replaced by its coercion. -/
def storeRecord (r : RawRecord) : RawRecord :=
  { r with rating := match to_numeric r.rating with | some q => .num q | none => .missing }

def recKey (r : Record) : String × String := (r.make, r.model)

/-- Lexicographic comparison of character lists by code point: the order
Python uses on strings (and the order of `sorted` and of pandas sorts). -/
def listLe : List Char → List Char → Bool
  | [], _ => true
  | _ :: _, [] => false
  | a :: as, b :: bs =>
    if a.toNat < b.toNat then true
    else if b.toNat < a.toNat then false
    else listLe as bs

/-- Python string comparison `a <= b`. -/
def strLe (a b : String) : Bool := listLe a.data b.data

/-- `strLe` as a relation, for use with `List.insertionSort`. -/
def strLeP (a b : String) : Prop := strLe a b = true

instance strLeP.dec : DecidableRel strLeP := fun a b => by
  unfold strLeP
  infer_instance

/-- pandas `groupby(['Make', 'Model'])` sorts the key tuples
lexicographically (make first, then model; ties on the make broken by the
model). -/
def keyLE (a b : String × String) : Prop :=
  (a.1 ≠ b.1 ∧ strLe a.1 b.1 = true) ∨ (a.1 = b.1 ∧ strLe a.2 b.2 = true)

instance keyLE.dec : DecidableRel keyLE := fun a b => by
  unfold keyLE
  infer_instance

/-- The group keys of `df.groupby(['Make', 'Model'])`: the distinct
`(Make, Model)` pairs in ascending lexicographic order. -/
def groupKeys (df2 : List Record) : List (String × String) :=
  List.insertionSort keyLE ((df2.map recKey).dedup)

/-- The rows of one group, in original row order. -/
def groupRows (df2 : List Record) (k : String × String) : List Record :=
  df2.filter (fun r => decide (recKey r = k))

/-- The fixed colour palette of line 47. -/
def palette : List String :=
  ["#003e8a", "#0049a3", "#0060d6", "#006cf0", "#0a78ff", "#3d94ff", "#70b0ff", "#a3cdff",
   "#6e6e6e", "#7a7a7a", "#878787", "#949494", "#c7c7c7", "#d4d4d4", "#e0e0e0"]

/-- Plotly trace visibility: fully shown, or `visible='legendonly'`. -/
inductive Vis where
  | shown
  | legendonly
deriving DecidableEq

/-- One `go.Scatter` trace, keeping the fields the callbacks read or set. -/
structure Trace where
  name : String
  x : List Int
  y : List (Option ℚ)
  markerSizes : List ℚ
  color : String
  visible : Vis
  showlegend : Bool
deriving DecidableEq

/-- The trace name `f"{name[0]} - {name[1]}"` of line 67. -/
def traceName (k : String × String) : String := k.1 ++ " - " ++ k.2

/-- One trace for group `k` at group index `i` (lines 52-79).  Marker sizes
come from `group['Rating'].fillna(5).mul(3)` (line 53): fill NaN with 5,
then multiply everything by 3. -/
def mkTrace (df2 : List Record) (selected_make : String) (i : Nat)
    (k : String × String) : Trace :=
  let group := groupRows df2 k
  let deemph : Bool := decide (selected_make ≠ "All" ∧ k.1 ≠ selected_make)
  { name := traceName k,
    x := group.map (·.year),
    y := group.map (·.rating),
    markerSizes := group.map (fun r => (r.rating.getD 5) * 3),
    color := palette.getD (i % palette.length) "",
    visible := if deemph then .legendonly else .shown,
    showlegend := !deemph }

/-- The chart title (lines 82-104), keeping the numeric content and dropping
the string formatting.  `err` marks inputs on which the Python code raises:
when every rating of the selected make is NaN and the make has more than one
model, `model_averages.idxmax()` on an all-NA series (and the subsequent
`model_averages[best_model]` lookup) fails. -/
inductive Title where
  | static
  | makeOnly (make : String) (avg : Option ℚ)
  | makeBestWorst (make : String) (avg : Option ℚ) (best : String) (bestAvg : ℚ)
      (worst : String) (worstAvg : ℚ)
  | makeModel (make mdl : String) (avg : Option ℚ)
  | err
deriving DecidableEq

/-- pandas `Series.mean()`: NaN entries are skipped; an empty or all-NaN
series yields NaN (`none`). -/
def pandasMean (xs : List (Option ℚ)) : Option ℚ :=
  let vs := xs.filterMap id
  if vs = [] then none else some (vs.sum / (vs.length : ℚ))

def ratingsOf (l : List Record) : List (Option ℚ) := l.map (·.rating)

/-- The distinct models of a frame in pandas `groupby('Model')` order
(ascending).  pandas takes the distinct values and sorts them; since both
sides are duplicate-free and sorting by a linear order on a duplicate-free
list is canonical, `dedup` followed by insertion sort is the same list. -/
def distinctModels (l : List Record) : List String :=
  List.insertionSort strLeP ((l.map (·.model)).dedup)

/-- `brand_data.groupby('Model')['Rating'].mean()` as an association list in
key order. -/
def modelAverages (l : List Record) : List (String × Option ℚ) :=
  (distinctModels l).map
    (fun m => (m, pandasMean (ratingsOf (l.filter (fun r => decide (r.model = m))))))

/-- `Series.idxmax` bundled with the attained value: the first entry
attaining the maximum among non-NaN entries; `none` when every entry is
NaN (where pandas raises). -/
def idxmaxOpt : List (String × Option ℚ) → Option (String × ℚ)
  | [] => none
  | (_, none) :: rest => idxmaxOpt rest
  | (m, some q) :: rest =>
    match idxmaxOpt rest with
    | none => some (m, q)
    | some (m2, q2) => if q < q2 then some (m2, q2) else some (m, q)

/-- `Series.idxmin` bundled with the attained value, analogously. -/
def idxminOpt : List (String × Option ℚ) → Option (String × ℚ)
  | [] => none
  | (_, none) :: rest => idxminOpt rest
  | (m, some q) :: rest =>
    match idxminOpt rest with
    | none => some (m, q)
    | some (m2, q2) => if q2 < q then some (m2, q2) else some (m, q)

/-- The title computation of lines 82-104. -/
def computeTitle (df2 : List Record) (selected_make selected_model : String) : Title :=
  if selected_make = "All" then .static
  else
    let brand := df2.filter (fun r => decide (r.make = selected_make))
    let avg := pandasMean (ratingsOf brand)
    if selected_model = "All" then
      let mavgs := modelAverages brand
      if 1 < mavgs.length then
        match idxmaxOpt mavgs, idxminOpt mavgs with
        | some (b, bq), some (w, wq) => .makeBestWorst selected_make avg b bq w wq
        | _, _ => .err
      else .makeOnly selected_make avg
    else
      let sub := brand.filter (fun r => decide (r.model = selected_model))
      .makeModel selected_make selected_model (pandasMean (ratingsOf sub))

/-- The figure: the trace list and the title (layout constants omitted). -/
structure Figure where
  traces : List Trace
  title : Title
deriving DecidableEq

/-- `create_car_ratings_plot` (lines 44-141).  The first component is the
stored dataframe after the in-place coercion of line 45; the second is the
produced figure. -/
def create_car_ratings_plot (df : List RawRecord) (selected_make selected_model : String) :
    List RawRecord × Figure :=
  let df2 := coerceDf df
  (df.map storeRecord,
    { traces := (groupKeys df2).enum.map (fun p => mkTrace df2 selected_make p.1 p.2),
      title := computeTitle df2 selected_make selected_model })

def listPre : List Char → List Char → Bool
  | [], _ => true
  | _ :: _, [] => false
  | a :: as, b :: bs => a == b && listPre as bs

/-- Contiguous occurrence of `n` in a character list. -/
def listOccurs : List Char → List Char → Bool
  | n, [] => n.isEmpty
  | n, c :: t => listPre n (c :: t) || listOccurs n t

/-- The Python substring test `needle in hay`. -/
def strContains (hay needle : String) : Bool := listOccurs needle.data hay.data

/-- Callback `update_model_dropdown` (lines 177-182): the options list
(as its values) and the new dropdown value.  `sorted(series.unique())` is
embedded as insertion sort of `dedup`; both produce the ascending
duplicate-free list of the same value set. -/
def update_model_dropdown (df : List RawRecord) (selected_make : String) :
    List String × String :=
  let pool := if selected_make = "All" then df
              else df.filter (fun r => decide (r.make = selected_make))
  ("All" :: List.insertionSort strLeP ((pool.map (·.model)).dedup), "All")

/-- Callback `update_figure` (lines 184-198): builds the figure and, when a
specific model is selected, sets `visible='legendonly'` on every trace whose
name does not contain the selected model as a substring.  The first
component is the stored dataframe after the call. -/
def update_figure (df : List RawRecord) (selected_make selected_model : String) :
    List RawRecord × Figure :=
  let res := create_car_ratings_plot df selected_make selected_model
  if selected_model = "All" then res
  else
    (res.1,
      { res.2 with
          traces := res.2.traces.map (fun t =>
            if strContains t.name selected_model then t
            else { t with visible := .legendonly }) })

/-- Spec-side: the records matched by a selection (make plus optional model). -/
def subsetRecords (df2 : List Record) (selected_make selected_model : String) :
    List Record :=
  df2.filter (fun r =>
    decide (r.make = selected_make ∧ (selected_model = "All" ∨ r.model = selected_model)))

/-- Spec-side: the arithmetic mean of the non-missing ratings. -/
def arithMean (xs : List (Option ℚ)) : ℚ :=
  (xs.filterMap id).sum / ((xs.filterMap id).length : ℚ)

/-- The average displayed in a title, when one is displayed. -/
def shownAvg : Title → Option (Option ℚ)
  | .static => none
  | .err => none
  | .makeOnly _ a => some a
  | .makeBestWorst _ a _ _ _ _ => some a
  | .makeModel _ _ a => some a

/-- Whether a title displays best/worst models. -/
def showsBestWorst : Title → Bool
  | .makeBestWorst _ _ _ _ _ _ => true
  | _ => false

/-- The legend entries of a trace list: names of traces with
`showlegend=True`. -/
def legendNames (l : List Trace) : List String :=
  (l.filter (fun t => t.showlegend)).map (fun t => t.name)

/-- The legend entries of a figure. -/
def legendEntries (fig : Figure) : List String := legendNames fig.traces

/-- The selection-independent content of a trace (everything except
visibility and legend emphasis). -/
def Trace.core (t : Trace) : String × List Int × List (Option ℚ) × List ℚ × String :=
  (t.name, t.x, t.y, t.markerSizes, t.color)

/-- Spec-side: `(b, q)` is the first maximal non-missing entry of `l`. -/
def isFirstMax (l : List (String × Option ℚ)) (b : String) (q : ℚ) : Prop :=
  ∃ l1 l2, l = l1 ++ (b, some q) :: l2
    ∧ (∀ p ∈ l, ∀ q2 : ℚ, p.2 = some q2 → q2 ≤ q)
    ∧ (∀ p ∈ l1, ∀ q2 : ℚ, p.2 = some q2 → q2 < q)

/-- Spec-side: `(w, q)` is the first minimal non-missing entry of `l`. -/
def isFirstMin (l : List (String × Option ℚ)) (w : String) (q : ℚ) : Prop :=
  ∃ l1 l2, l = l1 ++ (w, some q) :: l2
    ∧ (∀ p ∈ l, ∀ q2 : ℚ, p.2 = some q2 → q ≤ q2)
    ∧ (∀ p ∈ l1, ∀ q2 : ℚ, p.2 = some q2 → q < q2)

/-- Replace a non-numeric rating cell by a missing cell. -/
def maskRecord (r : RawRecord) : RawRecord :=
  { r with rating := match r.rating with | .nonNum _ => .missing | x => x }

/-- The two example rows of the specification: (Toyota, Corolla, 2020, 8.0)
and (Toyota, Corolla, 2021, missing). -/
def dfToyota : List RawRecord :=
  [⟨"Toyota", "Corolla", 2020, .num 8⟩, ⟨"Toyota", "Corolla", 2021, .missing⟩]

def dfMissing : List RawRecord := [⟨"Toyota", "Corolla", 2020, .missing⟩]

def dfTwoMakes : List RawRecord :=
  [⟨"Honda", "Civic", 2020, .num 7⟩, ⟨"Toyota", "Corolla", 2020, .num 8⟩]

def dfAbc : List RawRecord := [⟨"Toyota", "ABC", 2020, .num 8⟩]

def dfTwoModels : List RawRecord :=
  [⟨"Toyota", "Camry", 2020, .num 9⟩, ⟨"Toyota", "Corolla", 2020, .num 8⟩]

def dfAllBad : List RawRecord :=
  [⟨"Toyota", "Camry", 2020, .nonNum "n/a"⟩, ⟨"Toyota", "Corolla", 2021, .nonNum "tbd"⟩]

def dfNonNum : List RawRecord := [⟨"Toyota", "Corolla", 2020, .nonNum "N/A"⟩]

def dfSubstr : List RawRecord :=
  [⟨"Toyota", "Corolla", 2020, .num 8⟩, ⟨"Toyota", "Corolla S", 2021, .num 9⟩]

/-! ### Helper lemmas -/

theorem listLe_total : ∀ as bs : List Char, listLe as bs = true ∨ listLe bs as = true
  | [], _ => Or.inl rfl
  | _ :: _, [] => Or.inr rfl
  | a :: as, b :: bs => by
    by_cases h1 : a.toNat < b.toNat
    · exact Or.inl (by simp [listLe, h1])
    · by_cases h2 : b.toNat < a.toNat
      · exact Or.inr (by simp [listLe, h2])
      · rcases listLe_total as bs with h | h
        · exact Or.inl (by simp [listLe, h1, h2, h])
        · exact Or.inr (by simp [listLe, h1, h2, h])

theorem listLe_trans : ∀ as bs cs : List Char,
    listLe as bs = true → listLe bs cs = true → listLe as cs = true
  | [], _, _ => fun _ _ => rfl
  | _ :: _, [], _ => fun h _ => by simp [listLe] at h
  | _ :: _, _ :: _, [] => fun _ h => by simp [listLe] at h
  | a :: as, b :: bs, c :: cs => fun hab hbc => by
    simp only [listLe] at hab hbc ⊢
    by_cases h1 : a.toNat < b.toNat
    · by_cases h2 : b.toNat < c.toNat
      · have h0 : a.toNat < c.toNat := Nat.lt_trans h1 h2
        simp [h0]
      · by_cases h3 : c.toNat < b.toNat
        · simp [h2, h3] at hbc
        · have hbc' : b.toNat = c.toNat := by omega
          have h0 : a.toNat < c.toNat := hbc' ▸ h1
          simp [h0]
    · by_cases h4 : b.toNat < a.toNat
      · simp [h1, h4] at hab
      · have hab' : a.toNat = b.toNat := by omega
        by_cases h2 : b.toNat < c.toNat
        · have h0 : a.toNat < c.toNat := hab' ▸ h2
          simp [h0]
        · by_cases h3 : c.toNat < b.toNat
          · simp [h2, h3] at hbc
          · have h5 : ¬ a.toNat < c.toNat := by omega
            have h6 : ¬ c.toNat < a.toNat := by omega
            simp only [h1, h4, if_neg, ite_false] at hab
            simp only [h2, h3, if_neg, ite_false] at hbc
            simp [h5, h6, listLe_trans as bs cs (by simpa using hab) (by simpa using hbc)]

instance strLeP.total : IsTotal String strLeP :=
  ⟨fun a b => listLe_total a.data b.data⟩

instance strLeP.trans : IsTrans String strLeP :=
  ⟨fun a b c hab hbc => listLe_trans a.data b.data c.data hab hbc⟩

theorem enumFrom_map_comp {α β : Type} (f : α → β) :
    ∀ (l : List α) (n : Nat), (List.enumFrom n l).map (fun p => f p.2) = l.map f
  | [], _ => rfl
  | _ :: l, n => by simp [List.enumFrom, enumFrom_map_comp f l (n + 1)]

theorem enum_map_comp {α β : Type} (f : α → β) (l : List α) :
    l.enum.map (fun p => f p.2) = l.map f :=
  enumFrom_map_comp f l 0

theorem enumFrom_filter_map_comp {α β : Type} (p : α → Bool) (f : α → β) :
    ∀ (l : List α) (n : Nat),
      ((List.enumFrom n l).filter (fun x => p x.2)).map (fun x => f x.2) =
        (l.filter p).map f
  | [], _ => rfl
  | a :: l, n => by
    by_cases h : p a = true
    · simp [List.enumFrom, List.filter_cons, h, enumFrom_filter_map_comp p f l (n + 1)]
    · simp [List.enumFrom, List.filter_cons, h, enumFrom_filter_map_comp p f l (n + 1)]

theorem enum_filter_map_comp {α β : Type} (p : α → Bool) (f : α → β) (l : List α) :
    (l.enum.filter (fun x => p x.2)).map (fun x => f x.2) = (l.filter p).map f :=
  enumFrom_filter_map_comp p f l 0

theorem pandasMean_of_ne_nil {xs : List (Option ℚ)} (h : xs.filterMap id ≠ []) :
    pandasMean xs = some (arithMean xs) := by
  simp [pandasMean, arithMean, h]

theorem pandasMean_eq_none_iff {xs : List (Option ℚ)} :
    pandasMean xs = none ↔ xs.filterMap id = [] := by
  by_cases h : xs.filterMap id = [] <;> simp [pandasMean, h]

theorem idxmaxOpt_eq_none_iff : ∀ l : List (String × Option ℚ),
    idxmaxOpt l = none ↔ ∀ p ∈ l, p.2 = none
  | [] => by simp [idxmaxOpt]
  | (m, none) :: rest => by
    simp [idxmaxOpt, idxmaxOpt_eq_none_iff rest]
  | (m, some q) :: rest => by
    constructor
    · intro h
      exfalso
      unfold idxmaxOpt at h
      rcases h2 : idxmaxOpt rest with _ | p2
      · simp [h2] at h
      · rcases p2 with ⟨m2, q2⟩
        simp only [h2] at h
        split at h <;> simp at h
    · intro h
      exact absurd (h (m, some q) (List.mem_cons_self _ _)) (by simp)

theorem idxminOpt_eq_none_iff : ∀ l : List (String × Option ℚ),
    idxminOpt l = none ↔ ∀ p ∈ l, p.2 = none
  | [] => by simp [idxminOpt]
  | (m, none) :: rest => by
    simp [idxminOpt, idxminOpt_eq_none_iff rest]
  | (m, some q) :: rest => by
    constructor
    · intro h
      exfalso
      unfold idxminOpt at h
      rcases h2 : idxminOpt rest with _ | p2
      · simp [h2] at h
      · rcases p2 with ⟨m2, q2⟩
        simp only [h2] at h
        split at h <;> simp at h
    · intro h
      exact absurd (h (m, some q) (List.mem_cons_self _ _)) (by simp)

theorem idxmaxOpt_isFirstMax : ∀ {l : List (String × Option ℚ)} {b : String} {q : ℚ},
    idxmaxOpt l = some (b, q) → isFirstMax l b q := by
  intro l
  induction l with
  | nil => intro b q h; simp [idxmaxOpt] at h
  | cons p rest ih =>
    intro b q h
    rcases p with ⟨m, _ | qm⟩
    · have h' : idxmaxOpt rest = some (b, q) := h
      rcases ih h' with ⟨l1, l2, heq, hall, hfirst⟩
      refine ⟨(m, none) :: l1, l2, by rw [heq, List.cons_append], ?_, ?_⟩
      · rintro p2 hp2 q2 hq2
        rcases List.mem_cons.1 hp2 with rfl | hp2
        · simp at hq2
        · exact hall p2 hp2 q2 hq2
      · rintro p2 hp2 q2 hq2
        rcases List.mem_cons.1 hp2 with rfl | hp2
        · simp at hq2
        · exact hfirst p2 hp2 q2 hq2
    · rcases h2 : idxmaxOpt rest with _ | ⟨m2, q2⟩
      · unfold idxmaxOpt at h
        rw [h2] at h
        have h3 : some (m, qm) = some (b, q) := h
        rcases Prod.mk.injEq .. ▸ Option.some.inj h3 with ⟨rfl, rfl⟩
        refine ⟨[], rest, rfl, ?_, by simp⟩
        rintro p2 hp2 q3 hq3
        rcases List.mem_cons.1 hp2 with rfl | hp2
        · simp at hq3; exact le_of_eq hq3.symm
        · exact absurd hq3 (by simp [(idxmaxOpt_eq_none_iff rest).1 h2 p2 hp2])
      · rcases ih h2 with ⟨l1, l2, heq, hall, hfirst⟩
        unfold idxmaxOpt at h
        rw [h2] at h
        have h3 : (if qm < q2 then some (m2, q2) else some (m, qm)) = some (b, q) := h
        by_cases hlt : qm < q2
        · rw [if_pos hlt] at h3
          rcases Prod.mk.injEq .. ▸ Option.some.inj h3 with ⟨rfl, rfl⟩
          refine ⟨(m, some qm) :: l1, l2, by rw [heq, List.cons_append], ?_, ?_⟩
          · rintro p2 hp2 q3 hq3
            rcases List.mem_cons.1 hp2 with rfl | hp2
            · simp at hq3; exact hq3 ▸ le_of_lt hlt
            · exact hall p2 hp2 q3 hq3
          · rintro p2 hp2 q3 hq3
            rcases List.mem_cons.1 hp2 with rfl | hp2
            · simp at hq3; exact hq3 ▸ hlt
            · exact hfirst p2 hp2 q3 hq3
        · rw [if_neg hlt] at h3
          rcases Prod.mk.injEq .. ▸ Option.some.inj h3 with ⟨rfl, rfl⟩
          refine ⟨[], rest, rfl, ?_, by simp⟩
          rintro p2 hp2 q3 hq3
          rcases List.mem_cons.1 hp2 with rfl | hp2
          · simp at hq3; exact le_of_eq hq3.symm
          · exact le_trans (hall p2 hp2 q3 hq3) (le_of_not_lt hlt)

theorem idxminOpt_isFirstMin : ∀ {l : List (String × Option ℚ)} {w : String} {q : ℚ},
    idxminOpt l = some (w, q) → isFirstMin l w q := by
  intro l
  induction l with
  | nil => intro w q h; simp [idxminOpt] at h
  | cons p rest ih =>
    intro w q h
    rcases p with ⟨m, _ | qm⟩
    · have h' : idxminOpt rest = some (w, q) := h
      rcases ih h' with ⟨l1, l2, heq, hall, hfirst⟩
      refine ⟨(m, none) :: l1, l2, by rw [heq, List.cons_append], ?_, ?_⟩
      · rintro p2 hp2 q2 hq2
        rcases List.mem_cons.1 hp2 with rfl | hp2
        · simp at hq2
        · exact hall p2 hp2 q2 hq2
      · rintro p2 hp2 q2 hq2
        rcases List.mem_cons.1 hp2 with rfl | hp2
        · simp at hq2
        · exact hfirst p2 hp2 q2 hq2
    · rcases h2 : idxminOpt rest with _ | ⟨m2, q2⟩
      · unfold idxminOpt at h
        rw [h2] at h
        have h3 : some (m, qm) = some (w, q) := h
        rcases Prod.mk.injEq .. ▸ Option.some.inj h3 with ⟨rfl, rfl⟩
        refine ⟨[], rest, rfl, ?_, by simp⟩
        rintro p2 hp2 q3 hq3
        rcases List.mem_cons.1 hp2 with rfl | hp2
        · simp at hq3; exact le_of_eq hq3
        · exact absurd hq3 (by simp [(idxminOpt_eq_none_iff rest).1 h2 p2 hp2])
      · rcases ih h2 with ⟨l1, l2, heq, hall, hfirst⟩
        unfold idxminOpt at h
        rw [h2] at h
        have h3 : (if q2 < qm then some (m2, q2) else some (m, qm)) = some (w, q) := h
        by_cases hlt : q2 < qm
        · rw [if_pos hlt] at h3
          rcases Prod.mk.injEq .. ▸ Option.some.inj h3 with ⟨rfl, rfl⟩
          refine ⟨(m, some qm) :: l1, l2, by rw [heq, List.cons_append], ?_, ?_⟩
          · rintro p2 hp2 q3 hq3
            rcases List.mem_cons.1 hp2 with rfl | hp2
            · simp at hq3; exact hq3 ▸ le_of_lt hlt
            · exact hall p2 hp2 q3 hq3
          · rintro p2 hp2 q3 hq3
            rcases List.mem_cons.1 hp2 with rfl | hp2
            · simp at hq3; exact hq3 ▸ hlt
            · exact hfirst p2 hp2 q3 hq3
        · rw [if_neg hlt] at h3
          rcases Prod.mk.injEq .. ▸ Option.some.inj h3 with ⟨rfl, rfl⟩
          refine ⟨[], rest, rfl, ?_, by simp⟩
          rintro p2 hp2 q3 hq3
          rcases List.mem_cons.1 hp2 with rfl | hp2
          · simp at hq3; exact le_of_eq hq3
          · exact le_trans (le_of_not_lt hlt) (hall p2 hp2 q3 hq3)

theorem mem_distinctModels {l : List Record} {m : String} :
    m ∈ distinctModels l ↔ ∃ r ∈ l, r.model = m := by
  unfold distinctModels
  rw [List.mem_insertionSort, List.mem_dedup]
  simp

theorem modelAverages_all_none_iff {l : List Record} :
    (∀ p ∈ modelAverages l, p.2 = none) ↔ ∀ r ∈ l, r.rating = none := by
  constructor
  · intro h r hr
    have hm : r.model ∈ distinctModels l := mem_distinctModels.2 ⟨r, hr, rfl⟩
    have hp : (r.model,
        pandasMean (ratingsOf (l.filter (fun r2 => decide (r2.model = r.model))))) ∈
          modelAverages l :=
      List.mem_map.2 ⟨r.model, hm, rfl⟩
    have h2 := h _ hp
    rw [pandasMean_eq_none_iff] at h2
    rcases hcase : r.rating with _ | q
    · rfl
    · exfalso
      have hrg : r ∈ l.filter (fun r2 => decide (r2.model = r.model)) :=
        List.mem_filter.2 ⟨hr, by simp⟩
      have hqmem : q ∈ (ratingsOf (l.filter (fun r2 => decide (r2.model = r.model)))).filterMap id :=
        List.mem_filterMap.2 ⟨some q, List.mem_map.2 ⟨r, hrg, hcase⟩, rfl⟩
      rw [h2] at hqmem
      simp at hqmem
  · intro h p hp
    rcases List.mem_map.1 hp with ⟨m, _, rfl⟩
    show pandasMean _ = none
    rw [pandasMean_eq_none_iff, List.filterMap_eq_nil_iff]
    intro o ho
    rcases List.mem_map.1 ho with ⟨r, hrf, rfl⟩
    simp [h r (List.mem_filter.1 hrf).1]

theorem subsetRecords_all {df2 : List Record} {make : String} :
    subsetRecords df2 make "All" = df2.filter (fun r => decide (r.make = make)) := by
  unfold subsetRecords
  apply List.filter_congr
  intro r _
  simp

theorem subsetRecords_model {df2 : List Record} {make mdl : String} (h : mdl ≠ "All") :
    subsetRecords df2 make mdl =
      (df2.filter (fun r => decide (r.make = make))).filter
        (fun r => decide (r.model = mdl)) := by
  rw [List.filter_filter]
  unfold subsetRecords
  apply List.filter_congr
  intro r _
  simp [h, Bool.and_comm]

theorem create_title (df : List RawRecord) (make mdl : String) :
    (create_car_ratings_plot df make mdl).2.title = computeTitle (coerceDf df) make mdl := rfl

theorem create_traces (df : List RawRecord) (make mdl : String) :
    (create_car_ratings_plot df make mdl).2.traces =
      (groupKeys (coerceDf df)).enum.map (fun p => mkTrace (coerceDf df) make p.1 p.2) := rfl

theorem update_figure_fst (df : List RawRecord) (make mdl : String) :
    (update_figure df make mdl).1 = df.map storeRecord := by
  unfold update_figure
  split <;> rfl

theorem update_figure_title (df : List RawRecord) (make mdl : String) :
    (update_figure df make mdl).2.title = computeTitle (coerceDf df) make mdl := by
  unfold update_figure
  split <;> rfl

theorem update_figure_traces_all (df : List RawRecord) (make : String) :
    (update_figure df make "All").2.traces = (create_car_ratings_plot df make "All").2.traces := by
  unfold update_figure
  simp

theorem update_figure_traces_of_ne (df : List RawRecord) (make mdl : String)
    (h : mdl ≠ "All") :
    (update_figure df make mdl).2.traces =
      (create_car_ratings_plot df make mdl).2.traces.map (fun t =>
        if strContains t.name mdl then t else { t with visible := .legendonly }) := by
  unfold update_figure
  simp [h]

theorem mkTrace_name (df2 : List Record) (make : String) (i : Nat) (k : String × String) :
    (mkTrace df2 make i k).name = traceName k := rfl

theorem mkTrace_y (df2 : List Record) (make : String) (i : Nat) (k : String × String) :
    (mkTrace df2 make i k).y = (groupRows df2 k).map (fun r => r.rating) := rfl

theorem mkTrace_markerSizes (df2 : List Record) (make : String) (i : Nat) (k : String × String) :
    (mkTrace df2 make i k).markerSizes =
      (groupRows df2 k).map (fun r => (r.rating.getD 5) * 3) := rfl

theorem mkTrace_visible (df2 : List Record) (make : String) (i : Nat) (k : String × String) :
    (mkTrace df2 make i k).visible =
      if decide (make ≠ "All" ∧ k.1 ≠ make) then Vis.legendonly else Vis.shown := rfl

theorem mkTrace_showlegend (df2 : List Record) (make : String) (i : Nat) (k : String × String) :
    (mkTrace df2 make i k).showlegend = !decide (make ≠ "All" ∧ k.1 ≠ make) := rfl

theorem demote_name (mdl : String) (t : Trace) :
    (if strContains t.name mdl then t else { t with visible := .legendonly }).name = t.name := by
  split <;> rfl

theorem demote_showlegend (mdl : String) (t : Trace) :
    (if strContains t.name mdl then t
     else { t with visible := .legendonly }).showlegend = t.showlegend := by
  split <;> rfl

theorem demote_core (mdl : String) (t : Trace) :
    Trace.core (if strContains t.name mdl then t else { t with visible := .legendonly }) =
      Trace.core t := by
  split <;> rfl

theorem update_core (df : List RawRecord) (make mdl : String) :
    (update_figure df make mdl).2.traces.map Trace.core =
      (create_car_ratings_plot df make mdl).2.traces.map Trace.core := by
  by_cases h : mdl = "All"
  · rw [h, update_figure_traces_all]
  · rw [update_figure_traces_of_ne df make mdl h, List.map_map]
    apply List.map_congr_left
    intro t _
    exact demote_core mdl t

theorem create_core_indep (df : List RawRecord) (make mdl make2 mdl2 : String) :
    (create_car_ratings_plot df make mdl).2.traces.map Trace.core =
      (create_car_ratings_plot df make2 mdl2).2.traces.map Trace.core := by
  rw [create_traces, create_traces, List.map_map, List.map_map]
  apply List.map_congr_left
  rintro ⟨i, k⟩ _
  rfl

theorem create_traces_length (df : List RawRecord) (make mdl : String) :
    (create_car_ratings_plot df make mdl).2.traces.length =
      ((df.map (fun r => (r.make, r.model))).dedup).length := by
  rw [create_traces, List.length_map, List.enum_length]
  unfold groupKeys
  rw [(List.perm_insertionSort keyLE _).length_eq]
  unfold coerceDf
  rw [List.map_map]
  rfl

/-! ### Claims -/

/-- C6 (confirmed): the make-change handler always resets the model
selection value to "All". -/
theorem c6_model_value_reset (df : List RawRecord) (make : String) :
    (update_model_dropdown df make).2 = "All" := rfl

/-- C9 (counterexample): the dataset is not read-only after load: a figure
update on a dataset with a non-numeric rating rewrites the stored `Rating`
column in place, so the stored dataframe differs from the loaded one. -/
theorem c9_counterexample : (update_figure dfNonNum "All" "All").1 ≠ dfNonNum := by
  decide

/-- C9 (amended): a figure update stores the dataset with its `Rating`
column coerced (a real mutation of the shared dataframe), and this mutation
is idempotent: after the first interaction the stored dataset is a fixed
point. -/
theorem c9_mutation_idempotent (df : List RawRecord) (make mdl : String) :
    (update_figure df make mdl).1 = df.map storeRecord
    ∧ (df.map storeRecord).map storeRecord = df.map storeRecord := by
  refine ⟨update_figure_fst df make mdl, ?_⟩
  rw [List.map_map]
  apply List.map_congr_left
  intro r _
  rcases r with ⟨mk, md, y, _ | s | _⟩ <;> rfl

/-- C3 (counterexample): for a record with a missing rating the marker size
is 15 (`fillna(5).mul(3)`), not 5 as the claim states. -/
theorem c3_counterexample :
    (create_car_ratings_plot dfMissing "All" "All").2.traces.map (fun t => t.markerSizes) = [[15]]
    ∧ (create_car_ratings_plot dfMissing "All" "All").2.traces.map
        (fun t => t.markerSizes) ≠ [[5]] :=
  ⟨by decide, by decide⟩

/-- C3 (amended): marker sizes are the rating times 3 for present ratings
and 15 (the fill value 5 times 3) for missing ratings. -/
theorem c3_marker_sizes (df : List RawRecord) (make mdl : String) :
    (create_car_ratings_plot df make mdl).2.traces.map (fun t => t.markerSizes) =
      (create_car_ratings_plot df make mdl).2.traces.map (fun t =>
        t.y.map (fun o => match o with | some q => q * 3 | none => 15)) := by
  rw [create_traces, List.map_map, List.map_map]
  apply List.map_congr_left
  rintro ⟨i, k⟩ _
  show (mkTrace (coerceDf df) make i k).markerSizes =
    (mkTrace (coerceDf df) make i k).y.map (fun o => match o with | some q => q * 3 | none => 15)
  rw [mkTrace_markerSizes, mkTrace_y, List.map_map]
  apply List.map_congr_left
  intro r _
  show (r.rating.getD 5) * 3 = (match r.rating with | some q => q * 3 | none => 15)
  cases h : r.rating
  · show (5 : ℚ) * 3 = 15
    norm_num
  · rfl

/-- C5 (counterexample): for a dataset whose only model is "ABC", the
options list is ["All", "ABC"], which is not sorted in Python string order
("ABC" < "All" since "B" < "l"). -/
theorem c5_counterexample :
    (update_model_dropdown dfAbc "All").1 = ["All", "ABC"]
    ∧ ¬ List.Sorted strLeP ((update_model_dropdown dfAbc "All").1) :=
  ⟨by decide, by decide⟩

/-- C5 (amended): the options list is "All" followed by the models of the
selection (all models for make "All", otherwise the selected make's
models), and that tail is sorted and duplicate-free; the whole list need
not be sorted because "All" is prepended regardless of order. -/
theorem c5_model_options (df : List RawRecord) (make : String) :
    (update_model_dropdown df make).1.head? = some "All"
    ∧ List.Sorted strLeP (update_model_dropdown df make).1.tail
    ∧ (update_model_dropdown df make).1.tail.Nodup
    ∧ ∀ m : String, m ∈ (update_model_dropdown df make).1.tail ↔
        ∃ r ∈ df, r.model = m ∧ (make = "All" ∨ r.make = make) := by
  have htail : (update_model_dropdown df make).1.tail =
      List.insertionSort strLeP
        (((if make = "All" then df
           else df.filter (fun r => decide (r.make = make))).map (·.model)).dedup) := rfl
  refine ⟨rfl, ?_, ?_, ?_⟩
  · rw [htail]
    exact List.sorted_insertionSort strLeP _
  · rw [htail]
    exact ((List.perm_insertionSort strLeP _).nodup_iff).2 (List.nodup_dedup _)
  · intro m
    rw [htail, List.mem_insertionSort, List.mem_dedup, List.mem_map]
    by_cases hmk : make = "All"
    · subst hmk
      simp
    · rw [if_neg hmk]
      constructor
      · rintro ⟨r, hrf, hmod⟩
        rcases List.mem_filter.1 hrf with ⟨hrdf, hrmk⟩
        exact ⟨r, hrdf, hmod, Or.inr (by simpa using hrmk)⟩
      · rintro ⟨r, hrdf, hmod, hcase | hcase⟩
        · exact absurd hcase hmk
        · exact ⟨r, List.mem_filter.2 ⟨hrdf, by simpa using hcase⟩, hmod⟩

/-- C2 (confirmed): the figure always has one series per distinct
`(make, model)` pair of the full dataset, and the selection changes only
visibility and legend emphasis: the selection-independent content of every
trace (name, x, y, marker sizes, colour) is the same as with no filter. -/
theorem c2_series_stable (df : List RawRecord) (make mdl : String) :
    (update_figure df make mdl).2.traces.length =
        ((df.map (fun r => (r.make, r.model))).dedup).length
    ∧ (update_figure df make mdl).2.traces.map Trace.core =
        (update_figure df "All" "All").2.traces.map Trace.core := by
  constructor
  · by_cases h : mdl = "All"
    · rw [h, update_figure_traces_all]
      exact create_traces_length df make "All"
    · rw [update_figure_traces_of_ne df make mdl h, List.length_map]
      exact create_traces_length df make mdl
  · exact (update_core df make mdl).trans
      ((create_core_indep df make mdl "All" "All").trans (update_core df "All" "All").symm)

theorem legendNames_map_demote (mdl : String) (l : List Trace) :
    legendNames (l.map (fun t =>
      if strContains t.name mdl then t else { t with visible := .legendonly })) =
      legendNames l := by
  induction l with
  | nil => rfl
  | cons t l ih =>
    unfold legendNames at ih ⊢
    rw [List.map_cons, List.filter_cons, List.filter_cons, demote_showlegend]
    by_cases hs : t.showlegend = true
    · rw [if_pos hs, if_pos hs, List.map_cons, List.map_cons, demote_name, ih]
    · rw [if_neg hs, if_neg hs, ih]

theorem legendNames_create (df : List RawRecord) (make mdl : String) (h : make ≠ "All") :
    legendNames (create_car_ratings_plot df make mdl).2.traces =
      ((groupKeys (coerceDf df)).filter (fun k => decide (k.1 = make))).map traceName := by
  rw [create_traces]
  unfold legendNames
  rw [List.filter_map, List.map_map]
  have e1 : ∀ p ∈ (groupKeys (coerceDf df)).enum,
      ((fun t : Trace => t.showlegend) ∘
        fun p : Nat × (String × String) => mkTrace (coerceDf df) make p.1 p.2) p =
      (fun p : Nat × (String × String) => decide (p.2.1 = make)) p := by
    rintro ⟨i, k⟩ _
    show (mkTrace (coerceDf df) make i k).showlegend = decide (k.1 = make)
    rw [mkTrace_showlegend]
    by_cases hk : k.1 = make <;> simp [h, hk]
  rw [List.filter_congr e1]
  have e2 : ((fun t : Trace => t.name) ∘
      fun p : Nat × (String × String) => mkTrace (coerceDf df) make p.1 p.2) =
      fun p : Nat × (String × String) => traceName p.2 := rfl
  rw [e2]
  exact enum_filter_map_comp (fun k => decide (k.1 = make)) traceName _

/-- C4 (counterexample): the legend does not stay stable across make
selections: selecting "Honda" hides the legend entry of the Toyota series
(`showlegend=False`), so the legend differs from the unfiltered one. -/
theorem c4_counterexample :
    legendEntries (update_figure dfTwoMakes "Honda" "All").2 = ["Honda - Civic"]
    ∧ legendEntries (update_figure dfTwoMakes "All" "All").2 =
        ["Honda - Civic", "Toyota - Corolla"]
    ∧ legendEntries (update_figure dfTwoMakes "Honda" "All").2 ≠
        legendEntries (update_figure dfTwoMakes "All" "All").2 :=
  ⟨by decide, by decide, by decide⟩

/-- C4 (amended): with a make selected, series of other makes are kept in
the figure (the trace names are unchanged) and de-emphasized
(`visible='legendonly'`), but they are also hidden from the legend
(`showlegend=False`), so the legend lists exactly the selected make's
series rather than staying stable. -/
theorem c4_deemphasis (df : List RawRecord) (make mdl : String) (h : make ≠ "All") :
    (update_figure df make mdl).2.traces.map (fun t => t.name) =
        (groupKeys (coerceDf df)).map traceName
    ∧ (create_car_ratings_plot df make mdl).2.traces.map (fun t => (t.visible, t.showlegend)) =
        (groupKeys (coerceDf df)).map (fun k =>
          if k.1 = make then (Vis.shown, true) else (Vis.legendonly, false))
    ∧ legendEntries (update_figure df make mdl).2 =
        ((groupKeys (coerceDf df)).filter (fun k => decide (k.1 = make))).map traceName := by
  refine ⟨?_, ?_, ?_⟩
  · have hn1 : (update_figure df make mdl).2.traces.map (fun t => t.name) =
        (create_car_ratings_plot df make mdl).2.traces.map (fun t => t.name) := by
      by_cases hm : mdl = "All"
      · rw [hm, update_figure_traces_all]
      · rw [update_figure_traces_of_ne df make mdl hm, List.map_map]
        apply List.map_congr_left
        intro t _
        exact demote_name mdl t
    have hn2 : (create_car_ratings_plot df make mdl).2.traces.map (fun t => t.name) =
        (groupKeys (coerceDf df)).map traceName := by
      rw [create_traces, List.map_map]
      have e2 : ((fun t : Trace => t.name) ∘
          fun p : Nat × (String × String) => mkTrace (coerceDf df) make p.1 p.2) =
          fun p : Nat × (String × String) => traceName p.2 := rfl
      rw [e2]
      exact enum_map_comp traceName _
    exact hn1.trans hn2
  · rw [create_traces, List.map_map,
      ← enum_map_comp
        (fun k : String × String =>
          if k.1 = make then (Vis.shown, true) else (Vis.legendonly, false))
        (groupKeys (coerceDf df))]
    apply List.map_congr_left
    intro p _
    show ((mkTrace (coerceDf df) make p.1 p.2).visible,
        (mkTrace (coerceDf df) make p.1 p.2).showlegend) =
      (if p.2.1 = make then (Vis.shown, true) else (Vis.legendonly, false))
    rw [mkTrace_visible, mkTrace_showlegend]
    by_cases hk : p.2.1 = make <;> simp [h, hk]
  · have h3 : legendEntries (update_figure df make mdl).2 =
        legendNames (create_car_ratings_plot df make mdl).2.traces := by
      show legendNames (update_figure df make mdl).2.traces = _
      by_cases hm : mdl = "All"
      · rw [hm, update_figure_traces_all]
      · rw [update_figure_traces_of_ne df make mdl hm, legendNames_map_demote]
    exact h3.trans (legendNames_create df make mdl h)

/-- C4 (witness): for the two-make dataset with "Honda" selected, the
amended theorem yields the legend ["Honda - Civic"]. -/
theorem c4_witness :
    legendEntries (update_figure dfTwoMakes "Honda" "All").2 = ["Honda - Civic"] :=
  ((c4_deemphasis dfTwoMakes "Honda" "All" (by decide)).2.2).trans (by decide)

/-- C10 (confirmed): with a specific model selected, a series ends up fully
visible exactly when it passes the make filter and the selected model
occurs as a substring of the series name "Make - Model"; the update only
demotes traces whose name lacks the substring. -/
theorem c10_model_substring (df : List RawRecord) (make mdl : String) (h : mdl ≠ "All") :
    (update_figure df make mdl).2.traces.map (fun t => (t.name, t.visible)) =
      (groupKeys (coerceDf df)).map (fun k =>
        (traceName k,
          if (make = "All" ∨ k.1 = make) ∧ strContains (traceName k) mdl = true
          then Vis.shown else Vis.legendonly)) := by
  rw [update_figure_traces_of_ne df make mdl h, create_traces, List.map_map, List.map_map,
    ← enum_map_comp
      (fun k : String × String =>
        (traceName k,
          if (make = "All" ∨ k.1 = make) ∧ strContains (traceName k) mdl = true
          then Vis.shown else Vis.legendonly))
      (groupKeys (coerceDf df))]
  apply List.map_congr_left
  intro p _
  by_cases hc : strContains (traceName p.2) mdl = true
  · show (fun t : Trace => (t.name, t.visible))
        (if strContains (mkTrace (coerceDf df) make p.1 p.2).name mdl then
          mkTrace (coerceDf df) make p.1 p.2
        else { mkTrace (coerceDf df) make p.1 p.2 with visible := Vis.legendonly }) =
      (traceName p.2,
        if (make = "All" ∨ p.2.1 = make) ∧ strContains (traceName p.2) mdl = true
        then Vis.shown else Vis.legendonly)
    rw [mkTrace_name, if_pos hc]
    show (traceName p.2, (mkTrace (coerceDf df) make p.1 p.2).visible) = _
    rw [mkTrace_visible]
    by_cases hmk : make = "All"
    · simp [hmk, hc]
    · by_cases hk : p.2.1 = make <;> simp [hmk, hk, hc]
  · show (fun t : Trace => (t.name, t.visible))
        (if strContains (mkTrace (coerceDf df) make p.1 p.2).name mdl then
          mkTrace (coerceDf df) make p.1 p.2
        else { mkTrace (coerceDf df) make p.1 p.2 with visible := Vis.legendonly }) =
      (traceName p.2,
        if (make = "All" ∨ p.2.1 = make) ∧ strContains (traceName p.2) mdl = true
        then Vis.shown else Vis.legendonly)
    rw [mkTrace_name, if_neg hc]
    show (traceName p.2, Vis.legendonly) = _
    simp [hc]

/-- C10 (witness): with model "Corolla" selected and no make filter, the
series "Toyota - Corolla S" — a different (make, model) pair whose name
contains "Corolla" — also stays fully visible. -/
theorem c10_witness :
    (update_figure dfSubstr "All" "Corolla").2.traces.map (fun t => (t.name, t.visible)) =
      [("Toyota - Corolla", Vis.shown), ("Toyota - Corolla S", Vis.shown)] :=
  (c10_model_substring dfSubstr "All" "Corolla" (by decide)).trans (by decide)

theorem modelAverages_length (l : List Record) :
    (modelAverages l).length = (distinctModels l).length :=
  List.length_map _ _

theorem computeTitle_static (df2 : List Record) (mdl : String) :
    computeTitle df2 "All" mdl = .static := rfl

theorem computeTitle_model (df2 : List Record) {make mdl : String} (hmk : make ≠ "All")
    (hmd : mdl ≠ "All") :
    computeTitle df2 make mdl =
      .makeModel make mdl (pandasMean (ratingsOf
        ((df2.filter (fun r => decide (r.make = make))).filter
          (fun r => decide (r.model = mdl))))) := by
  unfold computeTitle
  rw [if_neg hmk, if_neg hmd]

theorem computeTitle_makeOnly (df2 : List Record) {make : String} (hmk : make ≠ "All")
    (hlen : ¬ 1 < (modelAverages (df2.filter (fun r => decide (r.make = make)))).length) :
    computeTitle df2 make "All" =
      .makeOnly make (pandasMean (ratingsOf (df2.filter (fun r => decide (r.make = make))))) := by
  unfold computeTitle
  rw [if_neg hmk, if_pos rfl, if_neg hlen]

theorem computeTitle_bestWorst (df2 : List Record) {make b w : String} {bq wq : ℚ}
    (hmk : make ≠ "All")
    (hlen : 1 < (modelAverages (df2.filter (fun r => decide (r.make = make)))).length)
    (hmax : idxmaxOpt (modelAverages (df2.filter (fun r => decide (r.make = make)))) =
      some (b, bq))
    (hmin : idxminOpt (modelAverages (df2.filter (fun r => decide (r.make = make)))) =
      some (w, wq)) :
    computeTitle df2 make "All" =
      .makeBestWorst make
        (pandasMean (ratingsOf (df2.filter (fun r => decide (r.make = make))))) b bq w wq := by
  unfold computeTitle
  rw [if_neg hmk, if_pos rfl, if_pos hlen, hmax, hmin]

theorem computeTitle_err (df2 : List Record) {make : String} (hmk : make ≠ "All")
    (hlen : 1 < (modelAverages (df2.filter (fun r => decide (r.make = make)))).length)
    (hmax : idxmaxOpt (modelAverages (df2.filter (fun r => decide (r.make = make)))) = none) :
    computeTitle df2 make "All" = .err := by
  have hmin : idxminOpt (modelAverages (df2.filter (fun r => decide (r.make = make)))) = none :=
    (idxminOpt_eq_none_iff _).2 ((idxmaxOpt_eq_none_iff _).1 hmax)
  unfold computeTitle
  rw [if_neg hmk, if_pos rfl, if_pos hlen, hmax, hmin]

theorem coerce_mask (df : List RawRecord) : coerceDf (df.map maskRecord) = coerceDf df := by
  unfold coerceDf
  rw [List.map_map]
  apply List.map_congr_left
  intro r _
  rcases r with ⟨mk, md, y, _ | s | _⟩ <;> rfl

theorem store_mask (df : List RawRecord) :
    (df.map maskRecord).map storeRecord = df.map storeRecord := by
  rw [List.map_map]
  apply List.map_congr_left
  intro r _
  rcases r with ⟨mk, md, y, _ | s | _⟩ <;> rfl

/-- C8 (counterexample): non-numeric ratings can make chart construction
fail: when every rating of the selected make is non-numeric (here both
models of Toyota), the best/worst computation runs `idxmax` on an all-NA
series and raises, modelled by `Title.err`. -/
theorem c8_counterexample :
    (create_car_ratings_plot dfAllBad "Toyota" "All").2.title = Title.err := by
  decide

/-- C8 (amended): non-numeric ratings are coerced to the missing marker
without error — the produced plot is identical to the plot of the dataset
with those cells blanked out — and chart construction fails exactly when
the selected make has more than one model and no non-missing rating at all
(the all-NA `idxmax` of the best/worst computation). -/
theorem c8_coercion_and_failure (df : List RawRecord) (make mdl : String) :
    create_car_ratings_plot (df.map maskRecord) make mdl = create_car_ratings_plot df make mdl
    ∧ ((create_car_ratings_plot df make mdl).2.title = Title.err ↔
        (make ≠ "All" ∧ mdl = "All"
          ∧ 1 < (distinctModels ((coerceDf df).filter (fun r => decide (r.make = make)))).length
          ∧ ∀ r ∈ (coerceDf df).filter (fun r => decide (r.make = make)), r.rating = none)) := by
  constructor
  · unfold create_car_ratings_plot
    rw [coerce_mask, store_mask]
  · rw [create_title]
    constructor
    · intro h
      by_cases hmk : make = "All"
      · rw [hmk, computeTitle_static] at h
        exact absurd h (by decide)
      · by_cases hmd : mdl = "All"
        · subst hmd
          by_cases hlen : 1 <
              (modelAverages ((coerceDf df).filter (fun r => decide (r.make = make)))).length
          · rcases hmax : idxmaxOpt
                (modelAverages ((coerceDf df).filter (fun r => decide (r.make = make)))) with
              _ | ⟨b, bq⟩
            · refine ⟨hmk, rfl, ?_, ?_⟩
              · rw [← modelAverages_length]
                exact hlen
              · exact modelAverages_all_none_iff.1 ((idxmaxOpt_eq_none_iff _).1 hmax)
            · rcases hmin : idxminOpt
                  (modelAverages ((coerceDf df).filter (fun r => decide (r.make = make)))) with
                _ | ⟨w, wq⟩
              · exact absurd ((idxmaxOpt_eq_none_iff _).2 ((idxminOpt_eq_none_iff _).1 hmin))
                  (by rw [hmax]; exact fun hc => Option.noConfusion hc)
              · rw [computeTitle_bestWorst (coerceDf df) hmk hlen hmax hmin] at h
                exact Title.noConfusion h
          · rw [computeTitle_makeOnly (coerceDf df) hmk hlen] at h
            exact Title.noConfusion h
        · rw [computeTitle_model (coerceDf df) hmk hmd] at h
          exact Title.noConfusion h
    · rintro ⟨hmk, rfl, hlen, hall⟩
      have hnone := modelAverages_all_none_iff.2 hall
      exact computeTitle_err (coerceDf df) hmk
        (by rw [modelAverages_length]; exact hlen)
        ((idxmaxOpt_eq_none_iff _).2 hnone)

/-- C1 (confirmed): for every selection with a make chosen whose subset has
at least one non-missing rating, the average displayed in the title is the
arithmetic mean of the non-missing ratings of the filtered subset; missing
ratings are excluded. -/
theorem c1_title_mean (df : List RawRecord) (make mdl : String) (hmk : make ≠ "All")
    (hne : (ratingsOf (subsetRecords (coerceDf df) make mdl)).filterMap id ≠ []) :
    shownAvg ((create_car_ratings_plot df make mdl).2.title) =
      some (some (arithMean (ratingsOf (subsetRecords (coerceDf df) make mdl)))) := by
  rw [create_title]
  by_cases hmd : mdl = "All"
  · subst hmd
    rw [subsetRecords_all] at hne ⊢
    by_cases hlen : 1 <
        (modelAverages ((coerceDf df).filter (fun r => decide (r.make = make)))).length
    · have hmaxne : idxmaxOpt
          (modelAverages ((coerceDf df).filter (fun r => decide (r.make = make)))) ≠ none := by
        intro hmax
        have hall := modelAverages_all_none_iff.1 ((idxmaxOpt_eq_none_iff _).1 hmax)
        apply hne
        rw [List.filterMap_eq_nil_iff]
        intro o ho
        rcases List.mem_map.1 ho with ⟨r, hr, rfl⟩
        simp [hall r hr]
      rcases hmax : idxmaxOpt
          (modelAverages ((coerceDf df).filter (fun r => decide (r.make = make)))) with
        _ | ⟨b, bq⟩
      · exact absurd hmax hmaxne
      · rcases hmin : idxminOpt
            (modelAverages ((coerceDf df).filter (fun r => decide (r.make = make)))) with
          _ | ⟨w, wq⟩
        · exact absurd ((idxmaxOpt_eq_none_iff _).2 ((idxminOpt_eq_none_iff _).1 hmin)) hmaxne
        · rw [computeTitle_bestWorst (coerceDf df) hmk hlen hmax hmin]
          show some (pandasMean _) = _
          rw [pandasMean_of_ne_nil hne]
    · rw [computeTitle_makeOnly (coerceDf df) hmk hlen]
      show some (pandasMean _) = _
      rw [pandasMean_of_ne_nil hne]
  · rw [subsetRecords_model hmd] at hne ⊢
    rw [computeTitle_model (coerceDf df) hmk hmd]
    show some (pandasMean _) = _
    rw [pandasMean_of_ne_nil hne]

/-- C1 (witness): for the two spec rows (Toyota, Corolla, 2020, 8.0) and
(Toyota, Corolla, 2021, missing), filtering to Toyota/Corolla shows mean 8:
the missing rating is excluded. -/
theorem c1_witness :
    shownAvg ((create_car_ratings_plot dfToyota "Toyota" "Corolla").2.title) =
      some (some 8) :=
  (c1_title_mean dfToyota "Toyota" "Corolla" (by decide) (by decide)).trans (by decide)

/-- C7 (counterexample): with make "Toyota" selected, model "All", and only
one Toyota model in the data, the title shows just the average — no best
and worst model — refuting the claim that best/worst are always shown in
this selection state. -/
theorem c7_counterexample :
    (create_car_ratings_plot dfToyota "Toyota" "All").2.title =
      Title.makeOnly "Toyota" (some 8)
    ∧ showsBestWorst ((create_car_ratings_plot dfToyota "Toyota" "All").2.title) = false :=
  ⟨by decide, by decide⟩

/-- C7 (amended): the title is static text with no make selected; the
subset mean with make and model selected; and with a make selected and
model "All" it shows the make mean plus best/worst models by per-model
mean — the first such model in the sorted grouping order on ties — but
only when the make has more than one distinct model (a single-model make
shows just the mean). -/
theorem c7_title_cases (df : List RawRecord) (make mdl : String) :
    (make = "All" → (create_car_ratings_plot df make mdl).2.title = .static)
    ∧ (make ≠ "All" → mdl ≠ "All" →
        (create_car_ratings_plot df make mdl).2.title =
          .makeModel make mdl (pandasMean (ratingsOf (subsetRecords (coerceDf df) make mdl))))
    ∧ (make ≠ "All" → mdl = "All" →
        ¬ 1 < (distinctModels ((coerceDf df).filter (fun r => decide (r.make = make)))).length →
        (create_car_ratings_plot df make mdl).2.title =
          .makeOnly make (pandasMean (ratingsOf (subsetRecords (coerceDf df) make mdl))))
    ∧ (make ≠ "All" → mdl = "All" →
        ∀ b bq w wq,
          idxmaxOpt (modelAverages ((coerceDf df).filter (fun r => decide (r.make = make)))) =
            some (b, bq) →
          idxminOpt (modelAverages ((coerceDf df).filter (fun r => decide (r.make = make)))) =
            some (w, wq) →
          1 < (distinctModels ((coerceDf df).filter (fun r => decide (r.make = make)))).length →
          (create_car_ratings_plot df make mdl).2.title =
            .makeBestWorst make
              (pandasMean (ratingsOf (subsetRecords (coerceDf df) make mdl))) b bq w wq
          ∧ isFirstMax
              (modelAverages ((coerceDf df).filter (fun r => decide (r.make = make)))) b bq
          ∧ isFirstMin
              (modelAverages ((coerceDf df).filter (fun r => decide (r.make = make)))) w wq) := by
  refine ⟨?_, ?_, ?_, ?_⟩
  · intro hmk
    rw [create_title, hmk, computeTitle_static]
  · intro hmk hmd
    rw [create_title, computeTitle_model (coerceDf df) hmk hmd, subsetRecords_model hmd]
  · intro hmk hmd hlen
    subst hmd
    rw [create_title, subsetRecords_all,
      computeTitle_makeOnly (coerceDf df) hmk (by rw [modelAverages_length]; exact hlen)]
  · intro hmk hmd b bq w wq hmax hmin hlen
    subst hmd
    refine ⟨?_, idxmaxOpt_isFirstMax hmax, idxminOpt_isFirstMin hmin⟩
    rw [create_title, subsetRecords_all,
      computeTitle_bestWorst (coerceDf df) hmk (by rw [modelAverages_length]; exact hlen)
        hmax hmin]

/-- C7 (witness): for a Toyota dataset with models Camry (9) and Corolla
(8), the title shows the make mean 17/2 with best Camry (9) and worst
Corolla (8). -/
theorem c7_witness :
    (create_car_ratings_plot dfTwoModels "Toyota" "All").2.title =
      Title.makeBestWorst "Toyota" (some (17/2)) "Camry" 9 "Corolla" 8 :=
  (((c7_title_cases dfTwoModels "Toyota" "All").2.2.2 (by decide) rfl "Camry" 9 "Corolla" 8
    (by decide) (by decide) (by decide)).1).trans (by decide)

end CarApp
